import Mathlib

/-!
Verification development for the Spendie message-interpretation pipeline.

Shallow embedding of the Python sources `parser.py`, `upi_ocr.py`, `bot.py`
(and the date-filter contract of `db.py`).  Python/JSON values are modelled by
the inductive `JVal`; Python dicts by association lists (`Dict`); the external
Groq inference call by an injected `GroqResponse` describing the observable
outcome of one request; `json.loads` by an injected partial parser
`String → Option JVal`; `datetime.now()` by an injected day number / timestamp
string.  Fallible Python code (raising paths) is modelled with `Option`.
-/

/-- A JSON/Python value as it appears in the pipeline's dict payloads. -/
inductive JVal where
  | null
  | bool (b : Bool)
  | num (n : Int)
  | str (s : String)
  | arr (elems : List JVal)
  | obj (fields : List (String × JVal))

/-- A Python dict with string keys, as an association list (insertion order kept,
keys unique by construction of `dictSet`). -/
abbrev Dict := List (String × JVal)

/-- Lookup `d[k]` returning `none` when the key is absent. -/
def dictGet? : Dict → String → Option JVal
  | [], _ => none
  | (k', v') :: rest, k => if k' = k then some v' else dictGet? rest k

/-- Python `k in d`. -/
def dictContains (d : Dict) (k : String) : Bool :=
  (dictGet? d k).isSome

/-- Python `d.get(k, dflt)`. -/
def dictGetD (d : Dict) (k : String) (dflt : JVal) : JVal :=
  (dictGet? d k).getD dflt

/-- Python `d.get(k)` (defaulting to `None`). -/
def dictGetN (d : Dict) (k : String) : JVal :=
  dictGetD d k JVal.null

/-- Python `d[k] = v`: replace the binding if the key exists, else append. -/
def dictSet : Dict → String → JVal → Dict
  | [], k, v => [(k, v)]
  | (k', v') :: rest, k, v => if k' = k then (k, v) :: rest else (k', v') :: dictSet rest k v

/-- Python truthiness of a value (`bool(v)`). -/
def truthy : JVal → Bool
  | JVal.null => false
  | JVal.bool b => b
  | JVal.num n => n != 0
  | JVal.str s => s != ""
  | JVal.arr elems => !elems.isEmpty
  | JVal.obj fields => !fields.isEmpty

/-- Python `v == s` for a string literal `s` (equality across types is `False`). -/
def JVal.isStr (v : JVal) (s : String) : Bool :=
  match v with
  | JVal.str t => t == s
  | _ => false

/-- A whitespace character (Python `str.strip` / regex `\s`; the rare `\f`/`\v`
forms are omitted). -/
def isPySpace (c : Char) : Bool :=
  c == ' ' || c == '\t' || c == '\n' || c == '\r'

/-- Python `s.strip()`: drop whitespace from both ends. -/
def pyStrip (s : String) : String :=
  String.mk (((s.data.dropWhile isPySpace).reverse.dropWhile isPySpace).reverse)

/-- Python `s.lower()` (ASCII; every label the pipeline compares against is
ASCII). -/
def pyLower (s : String) : String :=
  String.mk (s.data.map fun c => if 'A' ≤ c && c ≤ 'Z' then Char.ofNat (c.toNat + 32) else c)

/-- Value of a decimal digit string. -/
def digitsVal (cs : List Char) : Nat :=
  cs.foldl (fun a c => 10 * a + (c.toNat - '0'.toNat)) 0

/-- Decimal digit-string parse: `none` models Python `int` raising
`ValueError`. -/
def pyIntDigits? (cs : List Char) : Option Nat :=
  if cs.isEmpty then none
  else if cs.all Char.isDigit then some (digitsVal cs)
  else none

/-- Python `int(s)` on a string: strip whitespace, optional sign, digits. -/
def pyIntOfString? (s : String) : Option Int :=
  match (pyStrip s).data with
  | '-' :: ds => (pyIntDigits? ds).map (fun n => -(Int.ofNat n))
  | '+' :: ds => (pyIntDigits? ds).map Int.ofNat
  | ds => (pyIntDigits? ds).map Int.ofNat

/-- Python `str(v)` as used by f-string interpolation.  Scalar cases are exact;
the container renderings are placeholders (no modelled code interpolates a
container). -/
def pyStr : JVal → String
  | JVal.null => "None"
  | JVal.bool true => "True"
  | JVal.bool false => "False"
  | JVal.num n => toString n
  | JVal.str s => s
  | JVal.arr _ => "<list>"
  | JVal.obj _ => "<dict>"

/-- Python `int(v)`: `none` models a raised `ValueError`/`TypeError`.
Strings are trimmed and parsed with optional sign; bools coerce to 0/1;
`None`, lists and dicts raise. -/
def pyInt? : JVal → Option Int
  | JVal.num n => some n
  | JVal.bool b => some (if b then 1 else 0)
  | JVal.str s => pyIntOfString? s
  | _ => none

/-- Python `v <= 0` (against the int literal 0): `none` models a raised
`TypeError` (string/None/list/dict compared with an int). -/
def pyLeZero? : JVal → Option Bool
  | JVal.num n => some (decide (n ≤ 0))
  | JVal.bool b => some (!b)
  | _ => none

/-- Observable outcome of one `requests.post` round trip to the Groq API, as
seen by `call_groq` (parser.py:22): the network call raised, the JSON body
lacked the "choices" field, or a completion content string came back. -/
inductive GroqResponse where
  | netError
  | missingChoices
  | content (s : String)

/-- parser.py:22 `call_groq`: re-raises on network error and on a response
without "choices" (modelled as `Except.error`), otherwise returns the
completion content stripped. -/
def call_groq : GroqResponse → Except Unit String
  | GroqResponse.netError => Except.error ()
  | GroqResponse.missingChoices => Except.error ()
  | GroqResponse.content s => Except.ok (pyStrip s)

/-- upi_ocr.py:44 `parse_upi_screenshot`: calls `call_groq` and `json.loads`
inside a try/except that returns `None` on any exception.  `jsonParse` is the
injected model of `json.loads` (`none` = raises). -/
def parse_upi_screenshot (jsonParse : String → Option JVal) (resp : GroqResponse) : Option JVal :=
  match call_groq resp with
  | Except.error _ => none
  | Except.ok result =>
    match jsonParse result with
    | some parsed => some parsed
    | none => none

/-- The sentinel low-confidence record claimed by the spec for the Screenshot
Transaction Extractor.  Modelled from the spec's words, for comparison with
what upi_ocr.py:44 actually returns. -/
def specSentinelRecord : Dict :=
  [("type", JVal.str "expense"), ("amount", JVal.num 0),
   ("description", JVal.str "Could not parse screenshot"),
   ("category", JVal.str "miscellaneous"), ("confidence", JVal.str "low"),
   ("recipient_sender", JVal.null), ("transaction_id", JVal.null), ("app_name", JVal.null)]

/-- upi_ocr.py:109 `required_fields`. -/
def requiredFields : List String := ["type", "amount", "description"]

/-- The required-field loop condition of upi_ocr.py:110-112: a field fails when
it is absent or its value is falsy. -/
def missingRequired? (d : Dict) : Option String :=
  requiredFields.find? (fun f => !(dictContains d f && truthy (dictGetN d f)))

/-- All required fields present and truthy (negation of `missingRequired?`
firing; used to state theorems about the valid path). -/
def requiredFieldsOk (d : Dict) : Bool :=
  requiredFields.all (fun f => dictContains d f && truthy (dictGetN d f))

/-- upi_ocr.py:105 `validate_upi_transaction`.  The argument is `none` for
Python `None`; an empty dict is also falsy at line 106. -/
def validate_upi_transaction (transaction_data : Option Dict) : Bool × String :=
  match transaction_data with
  | none => (false, "Could not parse transaction data")
  | some d =>
    if d.isEmpty then (false, "Could not parse transaction data")
    else
      match missingRequired? d with
      | some f => (false, "Missing required field: " ++ f)
      | none =>
        match pyInt? (dictGetN d "amount") with
        | none => (false, "Invalid amount format")
        | some amount =>
          if amount ≤ 0 then (false, "Invalid amount")
          else if !(JVal.isStr (dictGetN d "type") "income" || JVal.isStr (dictGetN d "type") "expense") then
            (false, "Invalid transaction type")
          else if JVal.isStr (dictGetD d "confidence" (JVal.str "low")) "low" then
            (true, "Low confidence in parsing - please verify")
          else
            (true, "Valid transaction")

/-- Python `', '.join(xs)`. -/
def joinComma : List String → String
  | [] => ""
  | [x] => x
  | x :: y :: rest => x ++ ", " ++ joinComma (y :: rest)

/-- upi_ocr.py:130 `enhance_upi_description`.  Returns `none` for the one
raising path: `transaction_data['type']` (line 136) raises `KeyError` when the
key is absent while a truthy `recipient_sender` is present. -/
def enhance_upi_description (transaction_data : Dict) (user_description : String) : Option String :=
  let base_description := pyStr (dictGetD transaction_data "description" (JVal.str ""))
  let step1 : Option (List String) :=
    if truthy (dictGetN transaction_data "recipient_sender") then
      match dictGet? transaction_data "type" with
      | none => none
      | some ty =>
        if ty.isStr "expense" then
          some ["paid to " ++ pyStr (dictGetN transaction_data "recipient_sender")]
        else
          some ["received from " ++ pyStr (dictGetN transaction_data "recipient_sender")]
    else some []
  match step1 with
  | none => none
  | some ctx0 =>
    let upi_context := ctx0 ++
      (if truthy (dictGetN transaction_data "app_name") then
        ["via " ++ pyStr (dictGetN transaction_data "app_name")]
      else [])
    let final0 :=
      if user_description ≠ "" then
        user_description ++ " (" ++ base_description ++ ")"
      else base_description
    some (if upi_context.isEmpty then final0 else final0 ++ " [" ++ joinComma upi_context ++ "]")

/-- parser.py:70 `RephraseAgent.rephrase`: returns the stripped Groq completion,
or the original message unchanged when `call_groq` raises. -/
def rephrase (resp : GroqResponse) (user_message : String) : String :=
  match call_groq resp with
  | Except.ok rephrased => pyStrip rephrased
  | Except.error _ => user_message

/-- parser.py:171 `ClassificationAgent._determine_message_type`: lowercases and
strips the completion, or yields "unknown" when `call_groq` raises. -/
def determine_message_type (resp : GroqResponse) : String :=
  match call_groq resp with
  | Except.ok result => pyStrip (pyLower result)
  | Except.error _ => "unknown"

/-- The day model for `datetime`: an integer count of days since a fixed Monday
epoch, so Python's `date.weekday()` is `d % 7` (0 = Monday; `Int.emod` agrees
with Python `%` on a positive modulus). -/
def pyWeekday (d : Int) : Int := d % 7

/-- Stand-in for `strftime('%Y-%m-%d')`: renders a day number as an absolute
date string.  The Gregorian digits are abstracted (`toString d`), keeping what
the claims need: the rendering is a fixed function of the day and is never
equal to a relative-date token. -/
def isoOfDay (d : Int) : String :=
  String.mk ('i' :: 's' :: 'o' :: ':' :: (toString d).data)

/-- The relative-date token vocabulary of parser.py:316-327. -/
def relTokens : List String := ["today", "yesterday", "this_week", "last_week"]

/-- parser.py:310 `ClassificationAgent._enhance_query_dates`, with
`datetime.now()` injected as the day number `today`.  Only `start_date` is
inspected; each recognised token overwrites both `start_date` and `end_date`. -/
def enhance_query_dates (today : Int) (query_data : Dict) : Dict :=
  match dictGet? query_data "start_date" with
  | none => query_data
  | some sd =>
    if !truthy sd then query_data
    else if sd.isStr "today" then
      dictSet (dictSet query_data "start_date" (JVal.str (isoOfDay today)))
        "end_date" (JVal.str (isoOfDay today))
    else if sd.isStr "yesterday" then
      dictSet (dictSet query_data "start_date" (JVal.str (isoOfDay (today - 1))))
        "end_date" (JVal.str (isoOfDay (today - 1)))
    else if sd.isStr "this_week" then
      dictSet (dictSet query_data "start_date" (JVal.str (isoOfDay (today - pyWeekday today))))
        "end_date" (JVal.str (isoOfDay today))
    else if sd.isStr "last_week" then
      dictSet (dictSet query_data "start_date" (JVal.str (isoOfDay (today - (pyWeekday today + 1) - 6))))
        "end_date" (JVal.str (isoOfDay (today - (pyWeekday today + 1))))
    else query_data

/-- parser.py:165 the `unknown` branch of `classify`. -/
def unknownDict (rephrased_message : String) : Dict :=
  [("type", JVal.str "unknown"), ("message", JVal.str rephrased_message),
   ("confidence", JVal.str "low")]

/-- parser.py:301 `_extract_balance_query`. -/
def balanceDict : Dict :=
  [("message_type", JVal.str "balance"), ("intent", JVal.str "balance"),
   ("type", JVal.str "both"), ("confidence", JVal.str "high"),
   ("description", JVal.str "Balance inquiry")]

/-- parser.py:250 the error record of `_extract_transaction_details` (the
rendered exception text in `message` is abstracted to a fixed string). -/
def transactionErrorDict : Dict :=
  [("type", JVal.str "error"),
   ("message", JVal.str "Could not parse transaction: <exception>"),
   ("confidence", JVal.str "low")]

/-- parser.py:295 the error record of `_extract_query_details`. -/
def queryErrorDict : Dict :=
  [("intent", JVal.str "error"),
   ("message", JVal.str "Could not parse query: <exception>"),
   ("confidence", JVal.str "low")]

/-- parser.py:195 `_extract_transaction_details`: parse the completion as JSON
and tag it; any raise (`call_groq`, `json.loads`, or item assignment on a
non-dict) lands in the error record. -/
def extract_transaction_details (resp : GroqResponse) (jsonParse : String → Option JVal) : Dict :=
  match call_groq resp with
  | Except.error _ => transactionErrorDict
  | Except.ok result =>
    match jsonParse result with
    | some (JVal.obj fields) => dictSet fields "message_type" (JVal.str "transaction")
    | some _ => transactionErrorDict
    | none => transactionErrorDict

/-- parser.py:256 `_extract_query_details`: like the transaction extractor but
tagged "query" and passed through `_enhance_query_dates`. -/
def extract_query_details (today : Int) (resp : GroqResponse) (jsonParse : String → Option JVal) : Dict :=
  match call_groq resp with
  | Except.error _ => queryErrorDict
  | Except.ok result =>
    match jsonParse result with
    | some (JVal.obj fields) => enhance_query_dates today (dictSet fields "message_type" (JVal.str "query"))
    | some _ => queryErrorDict
    | none => queryErrorDict

/-- parser.py:155 `ClassificationAgent.classify`: dispatch on the classifier
label; anything other than the three known labels falls to the unknown record. -/
def classify (today : Int) (classifyResp extractResp : GroqResponse)
    (jsonParse : String → Option JVal) (rephrased_message : String) : Dict :=
  let message_type := determine_message_type classifyResp
  if message_type = "transaction" then extract_transaction_details extractResp jsonParse
  else if message_type = "query" then extract_query_details today extractResp jsonParse
  else if message_type = "balance" then balanceDict
  else unknownDict rephrased_message

/-- parser.py:50 `MessageParser.parse_message`, with `datetime.now()` injected
(`today` for date resolution, `timestamp` for `processing_timestamp`).
`unexpected` models the catch-all `except` branch (lines 61-67) firing with
the given exception text; all modelled inference failures are absorbed before
it, so `none` is the only reachable case for the modelled failure modes. -/
def parse_message (today : Int) (timestamp : String)
    (rephraseResp classifyResp extractResp : GroqResponse)
    (jsonParse : String → Option JVal) (unexpected : Option String)
    (user_message : String) : Dict :=
  match unexpected with
  | some e =>
    [("error", JVal.str e), ("original_message", JVal.str user_message),
     ("processing_timestamp", JVal.str timestamp)]
  | none =>
    let rephrased_message := rephrase rephraseResp user_message
    let c := classify today classifyResp extractResp jsonParse rephrased_message
    let c := dictSet c "original_message" (JVal.str user_message)
    let c := dictSet c "rephrased_message" (JVal.str rephrased_message)
    dictSet c "processing_timestamp" (JVal.str timestamp)

/-- bot.py:128 `handle_transaction`, reduced to its persistence decision: `true`
iff control reaches `add_transaction` (line 146).  It rejects error records and
records missing any of the keys type/amount/description — a key-presence check
only. -/
def handle_transaction_persists (result : Dict) : Bool :=
  if JVal.isStr (dictGetN result "type") "error" then false
  else if !(["type", "amount", "description"].all (fun k => dictContains result k)) then false
  else true

/-- bot.py:295 `handle_photo`, reduced to its persistence decision: `true` iff
control reaches `add_transaction` (line 344).  A `None`/empty parse result or
`transaction_data.get('amount', 0) <= 0` aborts; a `TypeError` in that
comparison (non-numeric amount) is caught by the handler's `except` and also
never persists; then validation must pass and the description enhancement must
not raise. -/
def handle_photo_persists (transaction_data : Option Dict) (user_description : String) : Bool :=
  match transaction_data with
  | none => false
  | some d =>
    if d.isEmpty then false
    else
      match pyLeZero? (dictGetD d "amount" (JVal.num 0)) with
      | none => false
      | some true => false
      | some false =>
        if !(validate_upi_transaction (some d)).1 then false
        else
          match enhance_upi_description d user_description with
          | none => false
          | some _ => true

/-- The numeric body `\d+(?:,\d+)*` of the amount patterns in
upi_ocr.py:218-226, as a single greedy left-to-right scan: digits, and commas
when at least one digit follows.  Returns (matched, rest). -/
def takeNumBody : List Char → List Char × List Char
  | [] => ([], [])
  | c :: cs =>
    if c.isDigit then
      let p := takeNumBody cs
      (c :: p.1, p.2)
    else if c = ',' then
      match cs with
      | [] => ([], [c])
      | d :: _ =>
        if d.isDigit then
          let p := takeNumBody cs
          (c :: p.1, p.2)
        else ([], c :: cs)
    else ([], c :: cs)

/-- The optional fraction `(?:\.\d{2})?`: exactly a dot and two digits, else
nothing.  Returns (matched, rest). -/
def matchFraction : List Char → List Char × List Char
  | '.' :: d1 :: d2 :: rest =>
    if d1.isDigit && d2.isDigit then (['.', d1, d2], rest)
    else ([], '.' :: d1 :: d2 :: rest)
  | cs => ([], cs)

/-- After a `₹` marker: `\s*` then the capture group
`\d+(?:,\d+)*(?:\.\d{2})?` (which must start with a digit). -/
def matchAfterRupee (cs : List Char) : Option (List Char) :=
  let cs1 := cs.dropWhile isPySpace
  match cs1 with
  | [] => none
  | c :: _ =>
    if c.isDigit then
      let p := takeNumBody cs1
      let f := matchFraction p.2
      some (p.1 ++ f.1)
    else none

/-- Leftmost match of the first amount pattern `₹\s*(\d+(?:,\d+)*(?:\.\d{2})?)`
of upi_ocr.py:219 over the transcript (`re.findall(...)[0]`). -/
def findRupeeMatch : List Char → Option (List Char)
  | [] => none
  | c :: rest =>
    if c = '₹' then
      match matchAfterRupee rest with
      | some g => some g
      | none => findRupeeMatch rest
    else findRupeeMatch rest

/-- upi_ocr.py:231 `matches[0].replace(',', '').replace('.', '')`: dropping
every comma and dot of the matched token. -/
def stripCommasDots (cs : List Char) : List Char :=
  cs.filter (fun c => !(c == ',') && !(c == '.'))

/-- upi_ocr.py:217 `extract_upi_amount`, on the domain where its first pattern
(the `₹` marker pattern) matches: the function returns from the first pattern
with a non-empty match list, so the remaining six patterns are unreachable
there.  Transcripts on which pattern 1 finds no match (handled by patterns
2-7 in the source) are outside this model and map to `none`. -/
def extract_upi_amount_rupee (text : String) : Option Int :=
  match findRupeeMatch text.data with
  | none => none
  | some g =>
    match pyIntDigits? (stripCommasDots g) with
    | none => none
    | some n => some (Int.ofNat n)

/-! Helper lemmas. -/

theorem dictGet?_dictSet_same (d : Dict) (k : String) (v : JVal) :
    dictGet? (dictSet d k v) k = some v := by
  induction d with
  | nil => simp [dictSet, dictGet?]
  | cons hd tl ih =>
    by_cases h : hd.1 = k
    · simp [dictSet, dictGet?, h]
    · simp [dictSet, dictGet?, h, ih]

theorem dictGet?_dictSet_other (d : Dict) (k k' : String) (v : JVal) (h : k ≠ k') :
    dictGet? (dictSet d k v) k' = dictGet? d k' := by
  induction d with
  | nil => simp [dictSet, dictGet?, h]
  | cons hd tl ih =>
    by_cases h1 : hd.1 = k
    · simp [dictSet, dictGet?, h1, h]
    · simp only [dictSet, if_neg h1, dictGet?, ih]

theorem str_append_assoc (a b c : String) : a ++ b ++ c = a ++ (b ++ c) := by
  cases a with
  | mk xa =>
    cases b with
    | mk xb =>
      cases c with
      | mk xc =>
        show String.mk (xa ++ xb ++ xc) = String.mk (xa ++ (xb ++ xc))
        rw [List.append_assoc]

theorem isPySpace_false_of_isDigit (c : Char) (h : c.isDigit = true) :
    isPySpace c = false := by
  have h1 : c ≠ ' ' := fun e => by rw [e] at h; exact absurd h (by decide)
  have h2 : c ≠ '\t' := fun e => by rw [e] at h; exact absurd h (by decide)
  have h3 : c ≠ '\n' := fun e => by rw [e] at h; exact absurd h (by decide)
  have h4 : c ≠ '\r' := fun e => by rw [e] at h; exact absurd h (by decide)
  simp [isPySpace, h1, h2, h3, h4]

theorem keep_of_isDigit (c : Char) (h : c.isDigit = true) :
    (!(c == ',') && !(c == '.')) = true := by
  have h1 : c ≠ ',' := fun e => by rw [e] at h; exact absurd h (by decide)
  have h2 : c ≠ '.' := fun e => by rw [e] at h; exact absurd h (by decide)
  simp [h1, h2]

theorem takeNumBody_digits (ds : List Char) (rest : List Char)
    (hd : ∀ c ∈ ds, c.isDigit = true)
    (hrest : rest = [] ∨ ∃ t, rest = '.' :: t) :
    takeNumBody (ds ++ rest) = (ds, rest) := by
  induction ds with
  | nil =>
    rcases hrest with rfl | ⟨t, rfl⟩
    · rfl
    · simp [takeNumBody]
  | cons c cs ih =>
    have hc : c.isDigit = true := hd c (List.mem_cons_self c cs)
    have ih' := ih (fun x hx => hd x (List.mem_cons_of_mem c hx))
    simp [takeNumBody, hc, ih']

theorem matchFraction_dotdigits (f1 f2 : Char) (rest : List Char)
    (h1 : f1.isDigit = true) (h2 : f2.isDigit = true) :
    matchFraction ('.' :: f1 :: f2 :: rest) = (['.', f1, f2], rest) := by
  simp [matchFraction, h1, h2]

theorem isoOfDay_ne_relToken (d : Int) : ∀ tok ∈ relTokens, isoOfDay d ≠ tok := by
  intro tok htok he
  have hh := congrArg (fun s => s.data.head?) he
  simp only at hh
  fin_cases htok
  · exact absurd (show some 'i' = some 't' from hh) (by decide)
  · exact absurd (show some 'i' = some 'y' from hh) (by decide)
  · exact absurd (show some 'i' = some 't' from hh) (by decide)
  · exact absurd (show some 'i' = some 'l' from hh) (by decide)

theorem requiredFieldsOk_iff_missing_none (d : Dict) :
    requiredFieldsOk d = true ↔ missingRequired? d = none := by
  simp only [requiredFieldsOk, missingRequired?, List.all_eq_true, List.find?_eq_none,
    Bool.not_eq_true', Bool.not_eq_false]

/-! Claim theorems. -/

/-- C1 counterexample: when the Inference Service raises, the Screenshot
Transaction Extractor (upi_ocr.py:44) returns `None` — the result IS null and
is not the claimed sentinel low-confidence record. -/
theorem C1_counterexample :
    parse_upi_screenshot (fun _ => none) GroqResponse.netError = none ∧
    parse_upi_screenshot (fun _ => none) GroqResponse.netError ≠ some (JVal.obj specSentinelRecord) := by
  refine ⟨rfl, fun h => ?_⟩
  exact Option.noConfusion h

/-- C1 (amended): on any failure — the Inference Service raising, or its output
failing to parse as JSON — `parse_upi_screenshot` returns `None` (never a
sentinel record); a non-null result arises exactly from a successful call whose
stripped output parses, and is that parsed value unchanged (so nothing
guarantees a non-negative integer `amount` in it). -/
theorem C1_theorem (jsonParse : String → Option JVal) (resp : GroqResponse) :
    (parse_upi_screenshot jsonParse resp = none ↔
      resp = GroqResponse.netError ∨ resp = GroqResponse.missingChoices ∨
      ∃ c, resp = GroqResponse.content c ∧ jsonParse (pyStrip c) = none) ∧
    ∀ v, parse_upi_screenshot jsonParse resp = some v →
      ∃ c, resp = GroqResponse.content c ∧ jsonParse (pyStrip c) = some v := by
  cases resp with
  | netError =>
    exact ⟨⟨fun _ => Or.inl rfl, fun _ => rfl⟩,
      fun v h => absurd h (by simp [parse_upi_screenshot, call_groq])⟩
  | missingChoices =>
    exact ⟨⟨fun _ => Or.inr (Or.inl rfl), fun _ => rfl⟩,
      fun v h => absurd h (by simp [parse_upi_screenshot, call_groq])⟩
  | content c =>
    cases hj : jsonParse (pyStrip c) with
    | none =>
      constructor
      · constructor
        · intro _
          exact Or.inr (Or.inr ⟨c, rfl, hj⟩)
        · intro _
          simp [parse_upi_screenshot, call_groq, hj]
      · intro v h
        rw [show parse_upi_screenshot jsonParse (GroqResponse.content c) =
          (match jsonParse (pyStrip c) with
            | some parsed => some parsed
            | none => none) from rfl, hj] at h
        exact absurd h (by simp)
    | some v0 =>
      constructor
      · constructor
        · intro h
          rw [show parse_upi_screenshot jsonParse (GroqResponse.content c) =
            (match jsonParse (pyStrip c) with
              | some parsed => some parsed
              | none => none) from rfl, hj] at h
          exact absurd h (by simp)
        · intro h
          rcases h with h | h | ⟨c1, hc1, hp⟩
          · exact GroqResponse.noConfusion h
          · exact GroqResponse.noConfusion h
          · have : c1 = c := by injection hc1 with h1; exact h1.symm
            rw [this] at hp
            rw [hp] at hj
            exact Option.noConfusion hj
      · intro v h
        rw [show parse_upi_screenshot jsonParse (GroqResponse.content c) =
          (match jsonParse (pyStrip c) with
            | some parsed => some parsed
            | none => none) from rfl, hj] at h
        injection h with h1
        exact ⟨c, rfl, by rw [hj, h1]⟩

/-- C1 witness: a successful parse returns the parsed JSON value itself. -/
theorem C1_witness :
    ∃ c, GroqResponse.content "x" = GroqResponse.content c ∧
      (fun _ => some JVal.null : String → Option JVal) (pyStrip c) = some JVal.null :=
  (C1_theorem (fun _ => some JVal.null) (GroqResponse.content "x")).2 JVal.null rfl

/-- C2 counterexample: a record with a positive, integer-parseable amount but an
empty description is rejected by upi_ocr.py:105 — a positive amount is NOT the
entire required-field check. -/
theorem C2_counterexample :
    (validate_upi_transaction (some [("type", JVal.str "expense"), ("amount", JVal.num 5),
      ("description", JVal.str "")])).1 = false ∧
    pyInt? (dictGetN [("type", JVal.str "expense"), ("amount", JVal.num 5),
      ("description", JVal.str "")] "amount") = some 5 ∧ (0 : Int) < 5 :=
  ⟨rfl, rfl, by decide⟩

/-- C2 (amended): an amount that parses as an integer `≤ 0` makes the record
invalid regardless of the other fields; an amount parsing as an integer `> 0`
makes it valid only when, additionally, type/amount/description are all present
and truthy and the type is "income" or "expense" — the amount is not the entire
required-field check. -/
theorem C2_theorem (d : Dict) (n : Int) :
    (pyInt? (dictGetN d "amount") = some n → n ≤ 0 →
      (validate_upi_transaction (some d)).1 = false) ∧
    (requiredFieldsOk d = true →
      pyInt? (dictGetN d "amount") = some n → 0 < n →
      (JVal.isStr (dictGetN d "type") "income" || JVal.isStr (dictGetN d "type") "expense") = true →
      (validate_upi_transaction (some d)).1 = true) := by
  constructor
  · intro hamt hle
    unfold validate_upi_transaction
    by_cases hemp : d.isEmpty = true
    · simp [hemp]
    · simp only [Bool.not_eq_true] at hemp
      simp only [hemp, Bool.false_eq_true, if_false]
      rcases hm : missingRequired? d with _ | f
      · simp only [hm, hamt, if_pos hle]
      · simp only [hm]
  · intro hreq hamt hpos hty
    have hm : missingRequired? d = none := (requiredFieldsOk_iff_missing_none d).mp hreq
    unfold validate_upi_transaction
    by_cases hemp : d.isEmpty = true
    · exfalso
      have hd : d = [] := List.isEmpty_iff.mp hemp
      rw [hd] at hreq
      exact absurd hreq (by decide)
    · simp only [Bool.not_eq_true] at hemp
      simp only [hemp, Bool.false_eq_true, if_false, hm, hamt]
      rw [if_neg (by omega : ¬n ≤ 0), if_neg (by simp [hty])]
      split
      · rfl
      · rfl

/-- C2 witness: a complete record with a positive amount validates; a record
with a negative amount does not. -/
theorem C2_witness :
    (validate_upi_transaction (some [("type", JVal.str "expense"), ("amount", JVal.num 250),
      ("description", JVal.str "groceries")])).1 = true ∧
    (validate_upi_transaction (some [("type", JVal.str "x"), ("amount", JVal.num (-5)),
      ("description", JVal.str "y")])).1 = false :=
  ⟨(C2_theorem [("type", JVal.str "expense"), ("amount", JVal.num 250),
      ("description", JVal.str "groceries")] 250).2 rfl rfl (by decide) rfl,
   (C2_theorem [("type", JVal.str "x"), ("amount", JVal.num (-5)),
      ("description", JVal.str "y")] (-5)).1 rfl (by decide)⟩

/-- C8: on any Inference Client failure (network error or a response missing the
completion field) the Rephrasing Stage (parser.py:70) returns the original
utterance unchanged; it is a total function, so it never raises to its caller. -/
theorem C8_theorem (user_message : String) :
    rephrase GroqResponse.netError user_message = user_message ∧
    rephrase GroqResponse.missingChoices user_message = user_message :=
  ⟨rfl, rfl⟩

/-- C10: parse_message (parser.py:50) always returns a dict carrying the
original message unchanged under 'original_message' and a
'processing_timestamp', in both the success shape and the catch-all error
shape; totality of the embedding reflects that it never raises. -/
theorem C10_theorem (today : Int) (timestamp : String)
    (rresp cresp eresp : GroqResponse) (jsonParse : String → Option JVal)
    (unexpected : Option String) (user_message : String) :
    dictGet? (parse_message today timestamp rresp cresp eresp jsonParse unexpected user_message)
      "original_message" = some (JVal.str user_message) ∧
    dictGet? (parse_message today timestamp rresp cresp eresp jsonParse unexpected user_message)
      "processing_timestamp" = some (JVal.str timestamp) := by
  cases unexpected with
  | some err => exact ⟨rfl, rfl⟩
  | none =>
    constructor
    · show dictGet? (dictSet (dictSet (dictSet _ "original_message" _) "rephrased_message" _)
        "processing_timestamp" _) "original_message" = _
      rw [dictGet?_dictSet_other _ _ _ _ (by decide), dictGet?_dictSet_other _ _ _ _ (by decide),
        dictGet?_dictSet_same]
    · show dictGet? (dictSet _ "processing_timestamp" _) "processing_timestamp" = _
      rw [dictGet?_dictSet_same]

/-- C5: the Date Range Resolver (parser.py:310), as a pure function of the
injected current day `today` (days since a Monday epoch, so the Monday-based
weekday index is `pyWeekday today`) and the relative token held in
`start_date`: today ↦ both bounds = today; yesterday ↦ both = today − 1;
this_week ↦ start = today − weekday, end = today; last_week ↦ end = start of
this_week − 1 and start = end − 6; and resolving twice with the same reference
date yields identical results. -/
theorem C5_theorem (today : Int) (q : Dict) :
    (dictGet? q "start_date" = some (JVal.str "today") →
      dictGet? (enhance_query_dates today q) "start_date" = some (JVal.str (isoOfDay today)) ∧
      dictGet? (enhance_query_dates today q) "end_date" = some (JVal.str (isoOfDay today))) ∧
    (dictGet? q "start_date" = some (JVal.str "yesterday") →
      dictGet? (enhance_query_dates today q) "start_date" = some (JVal.str (isoOfDay (today - 1))) ∧
      dictGet? (enhance_query_dates today q) "end_date" = some (JVal.str (isoOfDay (today - 1)))) ∧
    (dictGet? q "start_date" = some (JVal.str "this_week") →
      dictGet? (enhance_query_dates today q) "start_date"
        = some (JVal.str (isoOfDay (today - pyWeekday today))) ∧
      dictGet? (enhance_query_dates today q) "end_date" = some (JVal.str (isoOfDay today))) ∧
    (dictGet? q "start_date" = some (JVal.str "last_week") →
      dictGet? (enhance_query_dates today q) "start_date"
        = some (JVal.str (isoOfDay (today - pyWeekday today - 1 - 6))) ∧
      dictGet? (enhance_query_dates today q) "end_date"
        = some (JVal.str (isoOfDay (today - pyWeekday today - 1)))) ∧
    enhance_query_dates today q = enhance_query_dates today q := by
  refine ⟨?_, ?_, ?_, ?_, rfl⟩
  · intro h
    have h2 : enhance_query_dates today q =
        dictSet (dictSet q "start_date" (JVal.str (isoOfDay today)))
          "end_date" (JVal.str (isoOfDay today)) := by
      unfold enhance_query_dates
      rw [h]
      rfl
    rw [h2]
    exact ⟨by rw [dictGet?_dictSet_other _ _ _ _ (by decide), dictGet?_dictSet_same],
      dictGet?_dictSet_same _ _ _⟩
  · intro h
    have h2 : enhance_query_dates today q =
        dictSet (dictSet q "start_date" (JVal.str (isoOfDay (today - 1))))
          "end_date" (JVal.str (isoOfDay (today - 1))) := by
      unfold enhance_query_dates
      rw [h]
      rfl
    rw [h2]
    exact ⟨by rw [dictGet?_dictSet_other _ _ _ _ (by decide), dictGet?_dictSet_same],
      dictGet?_dictSet_same _ _ _⟩
  · intro h
    have h2 : enhance_query_dates today q =
        dictSet (dictSet q "start_date" (JVal.str (isoOfDay (today - pyWeekday today))))
          "end_date" (JVal.str (isoOfDay today)) := by
      unfold enhance_query_dates
      rw [h]
      rfl
    rw [h2]
    exact ⟨by rw [dictGet?_dictSet_other _ _ _ _ (by decide), dictGet?_dictSet_same],
      dictGet?_dictSet_same _ _ _⟩
  · intro h
    have h2 : enhance_query_dates today q =
        dictSet (dictSet q "start_date" (JVal.str (isoOfDay (today - (pyWeekday today + 1) - 6))))
          "end_date" (JVal.str (isoOfDay (today - (pyWeekday today + 1)))) := by
      unfold enhance_query_dates
      rw [h]
      rfl
    rw [h2]
    have e1 : today - (pyWeekday today + 1) - 6 = today - pyWeekday today - 1 - 6 := by ring
    have e2 : today - (pyWeekday today + 1) = today - pyWeekday today - 1 := by ring
    rw [e1, e2]
    exact ⟨by rw [dictGet?_dictSet_other _ _ _ _ (by decide), dictGet?_dictSet_same],
      dictGet?_dictSet_same _ _ _⟩

/-- C5 witness: resolving last_week on day 9 (a Wednesday, weekday 2) yields
start = day 0 and end = day 6. -/
theorem C5_witness :
    dictGet? (enhance_query_dates 9 [("start_date", JVal.str "last_week")]) "start_date"
      = some (JVal.str (isoOfDay (9 - pyWeekday 9 - 1 - 6))) ∧
    dictGet? (enhance_query_dates 9 [("start_date", JVal.str "last_week")]) "end_date"
      = some (JVal.str (isoOfDay (9 - pyWeekday 9 - 1))) :=
  (C5_theorem 9 [("start_date", JVal.str "last_week")]).2.2.2.1 rfl

/-- C6 counterexample: a relative token appearing only in `end_date` is left
untouched by the Date Range Resolver (parser.py:310 inspects only
`start_date`), so it leaks into the downstream query. -/
theorem C6_counterexample :
    dictGet? (enhance_query_dates 0 [("end_date", JVal.str "this_week")]) "end_date"
      = some (JVal.str "this_week") ∧ "this_week" ∈ relTokens :=
  ⟨rfl, by decide⟩

/-- C6 (amended): both bounds are guaranteed token-free only when `start_date`
itself holds one of the four relative tokens — then both bounds are overwritten
with absolute rendered dates; when `start_date` is absent the query dict passes
through entirely unchanged, so a relative token appearing only in `end_date` is
not resolved and leaks downstream. -/
theorem C6_theorem (today : Int) (q : Dict) :
    (∀ tok ∈ relTokens, dictGet? q "start_date" = some (JVal.str tok) →
      ∀ tok' ∈ relTokens,
        dictGet? (enhance_query_dates today q) "start_date" ≠ some (JVal.str tok') ∧
        dictGet? (enhance_query_dates today q) "end_date" ≠ some (JVal.str tok')) ∧
    (dictGet? q "start_date" = none → enhance_query_dates today q = q) := by
  constructor
  · intro tok htok h tok' htok'
    have hne : ∀ x : Int, some (JVal.str (isoOfDay x)) ≠ some (JVal.str tok') := by
      intro x he
      injection he with he1
      injection he1 with he2
      exact isoOfDay_ne_relToken x tok' htok' he2
    fin_cases htok
    · have h2 : enhance_query_dates today q =
          dictSet (dictSet q "start_date" (JVal.str (isoOfDay today)))
            "end_date" (JVal.str (isoOfDay today)) := by
        unfold enhance_query_dates
        rw [h]
        rfl
      rw [h2]
      rw [dictGet?_dictSet_other _ _ _ _ (by decide), dictGet?_dictSet_same, dictGet?_dictSet_same]
      exact ⟨hne today, hne today⟩
    · have h2 : enhance_query_dates today q =
          dictSet (dictSet q "start_date" (JVal.str (isoOfDay (today - 1))))
            "end_date" (JVal.str (isoOfDay (today - 1))) := by
        unfold enhance_query_dates
        rw [h]
        rfl
      rw [h2]
      rw [dictGet?_dictSet_other _ _ _ _ (by decide), dictGet?_dictSet_same, dictGet?_dictSet_same]
      exact ⟨hne _, hne _⟩
    · have h2 : enhance_query_dates today q =
          dictSet (dictSet q "start_date" (JVal.str (isoOfDay (today - pyWeekday today))))
            "end_date" (JVal.str (isoOfDay today)) := by
        unfold enhance_query_dates
        rw [h]
        rfl
      rw [h2]
      rw [dictGet?_dictSet_other _ _ _ _ (by decide), dictGet?_dictSet_same, dictGet?_dictSet_same]
      exact ⟨hne _, hne _⟩
    · have h2 : enhance_query_dates today q =
          dictSet (dictSet q "start_date" (JVal.str (isoOfDay (today - (pyWeekday today + 1) - 6))))
            "end_date" (JVal.str (isoOfDay (today - (pyWeekday today + 1)))) := by
        unfold enhance_query_dates
        rw [h]
        rfl
      rw [h2]
      rw [dictGet?_dictSet_other _ _ _ _ (by decide), dictGet?_dictSet_same, dictGet?_dictSet_same]
      exact ⟨hne _, hne _⟩
  · intro h
    unfold enhance_query_dates
    rw [h]

/-- C6 witness: when start_date holds the token "today", neither resolved bound
is a relative token. -/
theorem C6_witness :
    dictGet? (enhance_query_dates 0 [("start_date", JVal.str "today")]) "start_date"
      ≠ some (JVal.str "today") ∧
    dictGet? (enhance_query_dates 0 [("start_date", JVal.str "today")]) "end_date"
      ≠ some (JVal.str "today") :=
  (C6_theorem 0 [("start_date", JVal.str "today")]).1 "today" (by decide) rfl "today" (by decide)

/-- C9: at the public boundary of classify (parser.py:155) the effective label
is exactly one of the four outcomes; any classifier output whose
case-insensitive trimmed form is not a known label yields the unknown record,
as does any Inference Client failure; classify is total (never propagates an
error). -/
theorem C9_theorem (today : Int) (cresp eresp : GroqResponse)
    (jsonParse : String → Option JVal) (rephrased_message : String) :
    ((cresp = GroqResponse.netError ∨ cresp = GroqResponse.missingChoices) →
      classify today cresp eresp jsonParse rephrased_message = unknownDict rephrased_message) ∧
    (∀ s, cresp = GroqResponse.content s →
      pyStrip (pyLower (pyStrip s)) ∉ (["transaction", "query", "balance"] : List String) →
      classify today cresp eresp jsonParse rephrased_message = unknownDict rephrased_message) ∧
    (classify today cresp eresp jsonParse rephrased_message
        = extract_transaction_details eresp jsonParse ∨
     classify today cresp eresp jsonParse rephrased_message
        = extract_query_details today eresp jsonParse ∨
     classify today cresp eresp jsonParse rephrased_message = balanceDict ∨
     classify today cresp eresp jsonParse rephrased_message = unknownDict rephrased_message) := by
  refine ⟨?_, ?_, ?_⟩
  · rintro (rfl | rfl) <;> rfl
  · rintro s rfl hno
    simp only [List.mem_cons, List.mem_singleton, not_or] at hno
    obtain ⟨h1, h2, h3, -⟩ := hno
    have hdet : determine_message_type (GroqResponse.content s) = pyStrip (pyLower (pyStrip s)) := rfl
    simp only [classify, hdet]
    rw [if_neg h1, if_neg h2, if_neg h3]
  · by_cases h1 : determine_message_type cresp = "transaction"
    · exact Or.inl (by simp only [classify, if_pos h1])
    · by_cases h2 : determine_message_type cresp = "query"
      · exact Or.inr (Or.inl (by simp only [classify, if_neg h1, if_pos h2]))
      · by_cases h3 : determine_message_type cresp = "balance"
        · exact Or.inr (Or.inr (Or.inl (by simp only [classify, if_neg h1, if_neg h2, if_pos h3])))
        · exact Or.inr (Or.inr (Or.inr (by simp only [classify, if_neg h1, if_neg h2, if_neg h3])))

/-- C9 witness: the unrecognised classifier output "greeting" is coerced to the
unknown record. -/
theorem C9_witness :
    classify 0 (GroqResponse.content "greeting") (GroqResponse.content "x") (fun _ => none) "hello"
      = unknownDict "hello" :=
  (C9_theorem 0 (GroqResponse.content "greeting") (GroqResponse.content "x")
    (fun _ => none) "hello").2.1 "greeting" rfl (by decide)

/-- C7 counterexample: the typed-message handler (bot.py:128) checks only key
PRESENCE, so a record whose amount key is present with value 0 reaches
`add_transaction` and is persisted — refuting "amount 0 is never persisted" for
the typed pipeline. -/
theorem C7_counterexample :
    handle_transaction_persists
      [("type", JVal.str "expense"), ("amount", JVal.num 0), ("description", JVal.str "x")]
      = true := rfl

/-- C7 (amended): a record with the amount field absent is never persisted by
the typed-message handler (bot.py:137 requires the key), and the screenshot
handler (bot.py:325) never persists a parse result whose amount is absent,
non-numeric, or ≤ 0 — but the typed-message handler's check is key-presence
only, so an amount of 0 with the key present is persisted there. -/
theorem C7_theorem (result : Dict) (d : Dict) (caption : String) :
    (dictContains result "amount" = false → handle_transaction_persists result = false) ∧
    (pyLeZero? (dictGetD d "amount" (JVal.num 0)) ≠ some false →
      handle_photo_persists (some d) caption = false) ∧
    handle_photo_persists none caption = false := by
  refine ⟨?_, ?_, rfl⟩
  · intro h
    simp [handle_transaction_persists, h]
  · intro h
    unfold handle_photo_persists
    by_cases hemp : d.isEmpty = true
    · simp [hemp]
    · simp only [Bool.not_eq_true] at hemp
      simp only [hemp, Bool.false_eq_true, if_false]
      rcases hL : pyLeZero? (dictGetD d "amount" (JVal.num 0)) with _ | b
      · simp only [hL]
      · cases b with
        | false => exact absurd hL h
        | true => simp only [hL]

/-- C7 witness: a typed record without the amount key is rejected, and a
screenshot parse result with amount 0 is rejected. -/
theorem C7_witness :
    handle_transaction_persists [("type", JVal.str "expense"), ("description", JVal.str "x")]
      = false ∧
    handle_photo_persists (some [("type", JVal.str "expense"), ("amount", JVal.num 0),
      ("description", JVal.str "x")]) "" = false :=
  ⟨(C7_theorem [("type", JVal.str "expense"), ("description", JVal.str "x")] [] "").1 rfl,
   (C7_theorem [] [("type", JVal.str "expense"), ("amount", JVal.num 0),
      ("description", JVal.str "x")] "").2.1 (by decide)⟩

/-- C3 counterexample: the Description Enhancer (upi_ocr.py:130) writes the
directional clause as "received from X" (and "paid to X"), not "from X" / "to
X": the claimed output "groceries [from dad]" is not produced. -/
theorem C3_counterexample :
    enhance_upi_description
      [("description", JVal.str "groceries"), ("recipient_sender", JVal.str "dad"),
       ("type", JVal.str "income"), ("app_name", JVal.null)] ""
      = some "groceries [received from dad]" ∧
    (some "groceries [received from dad]" : Option String) ≠ some "groceries [from dad]" :=
  ⟨rfl, by decide⟩

/-- C3 (amended): the enhancer is the deterministic composition
"{caption} ({base})" (or "{base}" without caption) followed by the bracketed
clause, where the directional clause is "received from X" for a non-expense
kind and "paid to X" for expense — so the two example records yield
"groceries [received from dad]" and "lunch money (groceries) [received from
dad]". -/
theorem C3_theorem (base rs caption : String) (h : rs ≠ "") :
    enhance_upi_description
      [("description", JVal.str base), ("recipient_sender", JVal.str rs),
       ("type", JVal.str "income"), ("app_name", JVal.null)] caption
      = some ((if caption ≠ "" then caption ++ " (" ++ base ++ ")" else base) ++
          " [" ++ ("received from " ++ rs) ++ "]") ∧
    enhance_upi_description
      [("description", JVal.str base), ("recipient_sender", JVal.str rs),
       ("type", JVal.str "expense"), ("app_name", JVal.null)] caption
      = some ((if caption ≠ "" then caption ++ " (" ++ base ++ ")" else base) ++
          " [" ++ ("paid to " ++ rs) ++ "]") := by
  have hb : (rs != "") = true := bne_iff_ne.mpr h
  constructor
  · simp only [enhance_upi_description, dictGet?, dictGetN, dictGetD]
    simp [truthy, JVal.isStr, hb, joinComma, pyStr]
  · simp only [enhance_upi_description, dictGet?, dictGetN, dictGetD]
    simp [truthy, JVal.isStr, hb, joinComma, pyStr]

/-- C3 witness: the caption example evaluates to the amended composition. -/
theorem C3_witness :
    enhance_upi_description
      [("description", JVal.str "groceries"), ("recipient_sender", JVal.str "dad"),
       ("type", JVal.str "income"), ("app_name", JVal.null)] "lunch money"
      = some "lunch money (groceries) [received from dad]" := by
  have h := C3_theorem "groceries" "dad" "lunch money" (by decide)
  exact h.1.trans (by decide)

/-- C4 counterexample: the amount extraction (upi_ocr.py:217) strips the
decimal point from the matched token instead of truncating, so "₹123.45"
yields 12345, not the claimed 123. -/
theorem C4_counterexample :
    extract_upi_amount_rupee "₹123.45" = some 12345 ∧
    extract_upi_amount_rupee "₹123.45" ≠ some 123 := by
  exact ⟨rfl, by decide⟩

/-- C4 (amended): on a `₹`-marked amount token, a two-digit decimal fraction is
CONCATENATED onto the integer part (the dot is deleted, multiplying the rupee
part by 100), not truncated; a token without a fraction yields its integer
value. -/
theorem C4_theorem :
    (∀ (ds : List Char) (f1 f2 : Char) (rest : List Char),
      ds ≠ [] → (∀ c ∈ ds, c.isDigit = true) → f1.isDigit = true → f2.isDigit = true →
      extract_upi_amount_rupee (String.mk ('₹' :: (ds ++ '.' :: f1 :: f2 :: rest)))
        = some (Int.ofNat (digitsVal (ds ++ [f1, f2])))) ∧
    (∀ (ds : List Char), ds ≠ [] → (∀ c ∈ ds, c.isDigit = true) →
      extract_upi_amount_rupee (String.mk ('₹' :: ds)) = some (Int.ofNat (digitsVal ds))) := by
  constructor
  · intro ds f1 f2 rest hne hd h1 h2
    obtain ⟨c0, cs0, rfl⟩ : ∃ c0 cs0, ds = c0 :: cs0 := by
      cases ds with
      | nil => exact absurd rfl hne
      | cons a b => exact ⟨a, b, rfl⟩
    have hc0 : c0.isDigit = true := hd c0 (List.mem_cons_self _ _)
    have hdw : List.dropWhile isPySpace ((c0 :: cs0) ++ '.' :: f1 :: f2 :: rest)
        = (c0 :: cs0) ++ '.' :: f1 :: f2 :: rest := by
      rw [List.cons_append, List.dropWhile_cons, isPySpace_false_of_isDigit c0 hc0]
      simp
    have hmar : matchAfterRupee ((c0 :: cs0) ++ '.' :: f1 :: f2 :: rest)
        = some ((c0 :: cs0) ++ ['.', f1, f2]) := by
      simp only [matchAfterRupee, hdw]
      rw [List.cons_append]
      simp only [hc0, if_true]
      rw [← List.cons_append,
        takeNumBody_digits (c0 :: cs0) ('.' :: f1 :: f2 :: rest) hd (Or.inr ⟨_, rfl⟩),
        matchFraction_dotdigits f1 f2 rest h1 h2]
    have hfind : findRupeeMatch (String.mk ('₹' :: ((c0 :: cs0) ++ '.' :: f1 :: f2 :: rest))).data
        = some ((c0 :: cs0) ++ ['.', f1, f2]) := by
      show findRupeeMatch ('₹' :: ((c0 :: cs0) ++ '.' :: f1 :: f2 :: rest)) = _
      unfold findRupeeMatch
      rw [if_pos rfl, hmar]
    have hstrip : stripCommasDots ((c0 :: cs0) ++ ['.', f1, f2]) = (c0 :: cs0) ++ [f1, f2] := by
      unfold stripCommasDots
      rw [List.filter_append]
      have hA : List.filter (fun c => !(c == ',') && !(c == '.')) (c0 :: cs0) = c0 :: cs0 :=
        List.filter_eq_self.mpr (fun c hc => keep_of_isDigit c (hd c hc))
      have hB : List.filter (fun c => !(c == ',') && !(c == '.')) ['.', f1, f2] = [f1, f2] := by
        simp [List.filter, keep_of_isDigit f1 h1, keep_of_isDigit f2 h2]
      rw [hA, hB]
    have hne2 : ((c0 :: cs0) ++ [f1, f2]).isEmpty = false := by
      rw [List.cons_append]
      rfl
    have hall : ((c0 :: cs0) ++ [f1, f2]).all Char.isDigit = true := by
      apply List.all_eq_true.mpr
      intro x hx
      rcases List.mem_append.mp hx with hx | hx
      · exact hd x hx
      · rcases List.mem_cons.mp hx with rfl | hx
        · exact h1
        · rcases List.mem_cons.mp hx with rfl | hx
          · exact h2
          · exact absurd hx (List.not_mem_nil x)
    have hpid : pyIntDigits? ((c0 :: cs0) ++ [f1, f2])
        = some (digitsVal ((c0 :: cs0) ++ [f1, f2])) := by
      unfold pyIntDigits?
      rw [hne2, hall]
      simp
    unfold extract_upi_amount_rupee
    simp only [hfind, hstrip, hpid]
  · intro ds hne hd
    obtain ⟨c0, cs0, rfl⟩ : ∃ c0 cs0, ds = c0 :: cs0 := by
      cases ds with
      | nil => exact absurd rfl hne
      | cons a b => exact ⟨a, b, rfl⟩
    have hc0 : c0.isDigit = true := hd c0 (List.mem_cons_self _ _)
    have hdw : List.dropWhile isPySpace (c0 :: cs0) = c0 :: cs0 := by
      rw [List.dropWhile_cons, isPySpace_false_of_isDigit c0 hc0]
      simp
    have htnb : takeNumBody (c0 :: cs0) = (c0 :: cs0, []) := by
      have h := takeNumBody_digits (c0 :: cs0) [] hd (Or.inl rfl)
      rwa [List.append_nil] at h
    have hmar : matchAfterRupee (c0 :: cs0) = some (c0 :: cs0) := by
      simp only [matchAfterRupee, hdw]
      simp only [hc0, if_true]
      rw [htnb]
      simp [matchFraction]
    have hfind : findRupeeMatch (String.mk ('₹' :: (c0 :: cs0))).data = some (c0 :: cs0) := by
      show findRupeeMatch ('₹' :: (c0 :: cs0)) = _
      unfold findRupeeMatch
      rw [if_pos rfl, hmar]
    have hstrip : stripCommasDots (c0 :: cs0) = c0 :: cs0 :=
      List.filter_eq_self.mpr (fun c hc => keep_of_isDigit c (hd c hc))
    have hall : (c0 :: cs0).all Char.isDigit = true := List.all_eq_true.mpr hd
    have hpid : pyIntDigits? (c0 :: cs0) = some (digitsVal (c0 :: cs0)) := by
      unfold pyIntDigits?
      rw [hall]
      simp
    unfold extract_upi_amount_rupee
    simp only [hfind, hstrip, hpid]

/-- C4 witness: a fraction token concatenates (₹76.10 → 7610) and a plain token
yields its integer. -/
theorem C4_witness :
    extract_upi_amount_rupee (String.mk ['₹', '7', '6', '.', '1', '0']) = some 7610 ∧
    extract_upi_amount_rupee (String.mk ['₹', '8', '9']) = some 89 :=
  ⟨(C4_theorem.1 ['7', '6'] '1' '0' [] (by decide) (by decide) (by decide) (by decide)).trans
      (by decide),
   (C4_theorem.2 ['8', '9'] (by decide) (by decide)).trans (by decide)⟩
